import Mathlib

/-!
Shallow embedding of the KC Jain advocate backend (`src/app.py`).

The backend is a Flask/SQLite CRUD service.  We embed its data model
(content rows, QR/tree rows, sessions, the profile-image singleton) and
the request handlers the claims talk about, as pure functions from the
pre-state and the request parameters to the response and the post-state.
Environmental effects are made explicit inputs:

* random identifiers (`uuid4().hex`) are passed in as parameters;
* wall-clock times are passed in (`Nat` epoch seconds for session
  arithmetic, ISO strings where the code only stores them);
* the base64 payload of an upload is abstracted to its decoded byte
  count plus, when it is a structurally valid image, its pixel
  dimensions — decoding itself and PIL parsing are environmental;
* the disk is a list of paths relative to the uploads folder.

Stored JSON columns (`image_urls`, `tree_image_urls`) are embedded in
their parsed form (a list of image descriptors); the code writes either
`json.dumps(<list>)` or `''` into those columns, and `''` round-trips to
the empty list, so the parsed form is faithful for every state this
backend itself produces.
-/

namespace KcJain

/-- Python `str.lower()` as applied to ASCII filenames. -/
def strLower (s : String) : String := String.mk (s.toList.map Char.toLower)

/-- Whether `needle` occurs as a contiguous run inside `haystack`
(Python's `in` on strings, via the character lists). -/
def listContainsSub (needle : List Char) : List Char → Bool
  | [] => needle.isEmpty
  | c :: rest => needle.isPrefixOf (c :: rest) || listContainsSub needle rest

/-- Python `needle in hay` on strings. -/
def strContainsSub (needle hay : String) : Bool :=
  listContainsSub needle.toList hay.toList

/-- The characters after the last `'.'` of a filename (`none` when
there is no dot): the tail produced by `rsplit('.', 1)`. -/
def afterLastDot : List Char → Option (List Char)
  | [] => none
  | c :: rest =>
    match afterLastDot rest with
    | some e => some e
    | none => if c = '.' then some rest else none

/-- Model of `filename.rsplit('.', 1)[1].lower() if '.' in filename else ''`
from `get_file_type` (app.py line 374). -/
def extOf (filename : String) : String :=
  if filename.toList.contains '.' then
    strLower (String.mk ((afterLastDot filename.toList).getD []))
  else ""

/-- One pass of Python `str.replace`: replace each non-overlapping
occurrence of `pat` left to right (`fuel` bounds the recursion and is
instantiated with the input length; `pat` is never empty here). -/
def replaceSub (pat rep : List Char) : Nat → List Char → List Char
  | _, [] => []
  | 0, l => l
  | fuel + 1, c :: rest =>
    if pat ≠ [] ∧ pat.isPrefixOf (c :: rest) then
      rep ++ replaceSub pat rep fuel (rest.drop (pat.length - 1))
    else c :: replaceSub pat rep fuel rest

/-- Python `s.replace(pat, rep)` for a nonempty pattern. -/
def pyReplace (s pat rep : String) : String :=
  String.mk (replaceSub pat.toList rep.toList s.toList.length s.toList)

/-- Model of `get_file_type` (app.py lines 372-387): classify a filename by extension. -/
def get_file_type (filename : String) : String :=
  let ext := extOf filename
  if ["jpg", "jpeg", "png", "gif", "webp", "bmp", "svg"].contains ext then "image"
  else if ["mp4", "mov", "avi", "mkv", "webm", "flv", "wmv"].contains ext then "video"
  else if ext = "pdf" then "pdf"
  else if ["doc", "docx", "txt", "rtf", "odt"].contains ext then "document"
  else if ["mp3", "wav", "ogg", "flac"].contains ext then "audio"
  else "other"

/-- Model of `MAX_IMAGE_SIZE = 10 * 1024 * 1024` (app.py line 30). -/
def MAX_IMAGE_SIZE : Nat := 10 * 1024 * 1024

/-- Model of `MAX_VIDEO_SIZE = 100 * 1024 * 1024` (app.py line 31). -/
def MAX_VIDEO_SIZE : Nat := 100 * 1024 * 1024

/-- Ceiling division on naturals. -/
def natCeilDiv (a b : Nat) : Nat := (a + b - 1) / b

/-- PIL `round_aspect` as used in the width branch of `Image.thumbnail`:
pick floor or ceil of `num/den`, whichever minimises `|aspect - n/boxH|`
(cross-multiplied to `|A - n*B|`); ties pick the floor; result at least 1. -/
def roundAspectW (num den A B : Nat) : Nat :=
  let f := num / den
  let c := natCeilDiv num den
  let pick := if ((A : Int) - c * B).natAbs < ((A : Int) - f * B).natAbs then c else f
  max pick 1

/-- PIL `round_aspect` as used in the height branch of `Image.thumbnail`:
the key is `|aspect - x/n|` (key 0 when `n = 0`), compared here after
cross-multiplying the two candidate keys. -/
def roundAspectH (num den w h x : Nat) : Nat :=
  let f := num / den
  let c := natCeilDiv num den
  let pick :=
    if f = 0 then f
    else if ((w * c : Int) - h * x).natAbs * f < ((w * f : Int) - h * x).natAbs * c then c
    else f
  max pick 1

/-- PIL `Image.thumbnail((bw, bh))` size computation on a `w×h` image:
no-op when the image already fits the box, otherwise scale preserving
aspect ratio so that the result fits. -/
def thumbFit (w h bw bh : Nat) : Nat × Nat :=
  if w ≤ bw ∧ h ≤ bh then (w, h)
  else if bw * h ≥ w * bh then
    (roundAspectW (bh * w) h (w * bh) h, bh)
  else
    (bw, roundAspectH (bw * h) w w h bw)

/-- The dictionary returned by `save_base64_file`: non-image files carry
no thumbnail and no dimensions. -/
structure SaveDesc where
  url : String
  thumbnail : Option String
  ftype : String
  size : Nat
  dimensions : Option (Nat × Nat)
deriving Repr, DecidableEq

/-- A decoded base64 upload.  The byte payload is abstracted to its
decoded size plus, when PIL can open and verify it, its pixel
dimensions (`imageInfo = none` means invalid/corrupt image data). -/
structure Base64Upload where
  filename : String
  dataSize : Nat
  imageInfo : Option (Nat × Nat)
deriving Repr, DecidableEq

/-- Observable outcome of one `save_base64_file` call: the returned
descriptor (`none` when the internal exception handler swallowed a
failure), the message of the exception that was raised-and-swallowed if
any, the files this call left on disk, and the saved thumbnail's pixel
dimensions when one was written. -/
structure SaveOutcome where
  result : Option SaveDesc
  raised : Option String
  diskFiles : List String
  thumbDims : Option (Nat × Nat)
deriving Repr, DecidableEq

/-- Model of `save_base64_file` (app.py lines 413-522).  `uniqueHex` stands for
`uuid.uuid4().hex`.  Size ceilings are checked before anything is
written; image data is verified, re-encoded, downscaled to a 1920px
longest edge, and a 300px-bounded thumbnail is written next to it; all
exceptions are caught and turn into a `none` result with the temp file
removed.  The re-encoded byte size of an image is environment-determined
and recorded here as the decoded input size. -/
def save_base64_file (p : Base64Upload) (uniqueHex : String) (subfolder : String) : SaveOutcome :=
  let ftype := get_file_type p.filename
  if ftype = "image" ∧ p.dataSize > MAX_IMAGE_SIZE then
    { result := none,
      raised := some ("Image size exceeds " ++ toString (MAX_IMAGE_SIZE / (1024 * 1024)) ++ "MB limit"),
      diskFiles := [], thumbDims := none }
  else if ftype = "video" ∧ p.dataSize > MAX_VIDEO_SIZE then
    { result := none,
      raised := some ("Video size exceeds " ++ toString (MAX_VIDEO_SIZE / (1024 * 1024)) ++ "MB limit"),
      diskFiles := [], thumbDims := none }
  else
    let ext := if p.filename.toList.contains '.' then
      strLower (String.mk ((afterLastDot p.filename.toList).getD []))
    else "bin"
    let uniqueName := uniqueHex ++ "." ++ ext
    let savePath :=
      if strContainsSub "profile" (strLower p.filename) ∨ subfolder = "profile" then
        "profile/" ++ uniqueName
      else if ftype = "image" then "images/" ++ uniqueName
      else if ftype = "video" then "videos/" ++ uniqueName
      else if ext = "png" ∧ strContainsSub "qr" (strLower p.filename) then
        "qrcodes/" ++ uniqueName
      else if ftype = "pdf" then "documents/" ++ uniqueName
      else "others/" ++ uniqueName
    if ftype = "image" then
      match p.imageInfo with
      | none =>
        { result := none, raised := some "Invalid image file", diskFiles := [], thumbDims := none }
      | some (w, h) =>
        let primary := if max w h > 1920 then thumbFit w h 1920 1920 else (w, h)
        let thumbPath := "thumbnails/thumb_" ++ uniqueName
        { result := some { url := "/uploads/" ++ savePath,
                           thumbnail := some ("/uploads/" ++ thumbPath),
                           ftype := "image", size := p.dataSize, dimensions := some primary },
          raised := none,
          diskFiles := [savePath, thumbPath],
          thumbDims := some (thumbFit primary.1 primary.2 300 300) }
    else
      { result := some { url := "/uploads/" ++ savePath, thumbnail := none, ftype := ftype,
                         size := p.dataSize, dimensions := none },
        raised := none, diskFiles := [savePath], thumbDims := none }

/-- One entry of the parsed `image_urls` JSON column. -/
structure ImageDesc where
  url : String
  thumbnail : String
  size : Nat
  dimensions : Option (Nat × Nat)
deriving Repr, DecidableEq

/-- One row of the `content` table (app.py lines 70-97). -/
structure ContentRow where
  id : String
  ctype : String
  title : String
  text : String
  category : String
  imageUrls : List ImageDesc
  videoUrl : String
  createdDate : String
  updatedDate : String
  status : String
  mediaType : String
  fileCount : Nat
  style : String
  priority : Int
  tags : String
  views : Nat
  likes : Nat
  shares : Nat
  author : String
  featured : Bool
  language : String
  seoTitle : String
  seoDescription : String
  seoKeywords : String
deriving Repr, DecidableEq

/-- The `tags` value of a request payload: missing, a JSON list, or a
plain string. -/
inductive TagsField where
  | absent
  | list (tags : List String)
  | str (s : String)
deriving Repr, DecidableEq

/-- Model of `json.dumps` on a list of plain strings. -/
def jsonDumps (l : List String) : String :=
  "[" ++ String.intercalate ", " (l.map (fun s => "\"" ++ s ++ "\"")) ++ "]"

/-- The `data` object of a content POST/PUT body; `none` means the key
is absent from the payload. -/
structure ContentPayload where
  id : Option String := none
  ctype : Option String := none
  title : Option String := none
  text : Option String := none
  category : Option String := none
  videoUrl : Option String := none
  style : Option String := none
  priority : Option Int := none
  tags : TagsField := TagsField.absent
  author : Option String := none
  featured : Option Bool := none
  language : Option String := none
  seoTitle : Option String := none
  seoDescription : Option String := none
  seoKeywords : Option String := none
deriving Repr, DecidableEq

/-- One row of the `sessions` table.  `expiresAt` is the epoch-seconds
absolute expiry stored by `login` (app.py line 775). -/
structure Session where
  token : String
  userId : Nat
  expiresAt : Nat
deriving Repr, DecidableEq

/-- The bearer-token gate every mutating endpoint runs (app.py e.g.
lines 1059-1075): reject an empty token, find a session row with the
token and `expires_at > now`, then resolve its user in `admin_users`. -/
def checkAuth (sessions : List Session) (admins : List Nat) (token : String) (now : Nat) :
    Option Nat :=
  if token = "" then none
  else
    match sessions.find? (fun s => s.token == token && decide (now < s.expiresAt)) with
    | none => none
    | some s => if admins.contains s.userId then some s.userId else none

/-- Model of `verify_token` (app.py lines 832-868): valid iff a session row joined
with an existing admin user matches the token and is unexpired. -/
def verify_token (sessions : List Session) (admins : List Nat) (token : String) (now : Nat) :
    Bool :=
  if token = "" then false
  else sessions.any
    (fun s => s.token == token && decide (now < s.expiresAt) && admins.contains s.userId)

/-- The session insert performed by `login` (app.py lines 763-778):
a new row with a 24-hour absolute expiry. -/
def login_session (sessions : List Session) (token : String) (uid : Nat) (now : Nat) :
    List Session :=
  { token := token, userId := uid, expiresAt := now + 86400 } :: sessions

/-- Model of `logout` (app.py lines 811-830): delete every session row holding
the token; a missing/empty token is a no-op (still reported success). -/
def logout (sessions : List Session) (token : String) : List Session :=
  if token = "" then sessions else sessions.filter (fun s => !(s.token == token))

/-- The ways a request can change the `sessions` table: `login` inserts
a row, `logout` deletes by token, everything else only reads it. -/
inductive SEvent where
  | login (s : Session)
  | logout (tok : String)
  | readOnly
deriving Repr, DecidableEq

/-- Effect of one event on the `sessions` table. -/
def sStep (sessions : List Session) : SEvent → List Session
  | SEvent.login s => s :: sessions
  | SEvent.logout tok => logout sessions tok
  | SEvent.readOnly => sessions

/-- Effect of a sequence of events on the `sessions` table. -/
def sRun (sessions : List Session) (es : List SEvent) : List Session :=
  es.foldl sStep sessions

/-- Sort predicate of `ORDER BY priority DESC, created_date DESC`
(app.py line 900); SQLite compares TEXT timestamps lexicographically. -/
def contentLe (a b : ContentRow) : Bool :=
  match compare b.priority a.priority with
  | Ordering.lt => true
  | Ordering.eq => !(compare b.createdDate a.createdDate == Ordering.gt)
  | Ordering.gt => false

/-- Filter of `get_all_content` (app.py lines 886-898); `none` stands for
an absent or empty (falsy) query parameter. -/
def contentListPred (tf cf : Option String) (ff : Bool) (r : ContentRow) : Bool :=
  r.status == "Active"
  && (match tf with
      | some t => if t == "all" then true else r.ctype == t
      | none => true)
  && (match cf with
      | some c => r.category == c
      | none => true)
  && (!ff || r.featured)

/-- Model of `get_all_content` (app.py lines 871-982): Active rows under the
query filters, ordered, then `LIMIT lim OFFSET off`. -/
def get_all_content (db : List ContentRow) (tf cf : Option String) (ff : Bool)
    (lim off : Nat) : List ContentRow :=
  (((db.filter (contentListPred tf cf ff)).mergeSort contentLe).drop off).take lim

/-- Model of `get_content` (app.py lines 984-1048): fetch the row by id with
`status = "Active"` (404 → `none`), then increment its view counter;
the returned item reflects the pre-increment row. -/
def get_content (db : List ContentRow) (cid : String) :
    Option ContentRow × List ContentRow :=
  match db.find? (fun r => r.id == cid && r.status == "Active") with
  | none => (none, db)
  | some r =>
    (some r, db.map (fun x => if x.id == cid then { x with views := x.views + 1 } else x))

/-- Success flag and HTTP status of a mutating endpoint's response. -/
structure EndpointResult where
  success : Bool
  status : Nat
deriving Repr, DecidableEq

/-- Model of `delete_content` (app.py lines 1336-1386): authenticate, then
`UPDATE content SET status = "Inactive" WHERE id = ?` — no existence
check, success either way. -/
def delete_content (sessions : List Session) (admins : List Nat) (token : String) (tnow : Nat)
    (db : List ContentRow) (cid : String) : EndpointResult × List ContentRow :=
  match checkAuth sessions admins token tnow with
  | none => ({ success := false, status := 401 }, db)
  | some _ =>
    ({ success := true, status := 200 },
     db.map (fun r => if r.id == cid then { r with status := "Inactive" } else r))

/-- The image descriptors collected from the successfully saved files of
a request (app.py lines 1086-1100): failed saves are silently skipped. -/
def ingestedImages (files : List (Option SaveDesc)) : List ImageDesc :=
  (files.filterMap id).filterMap (fun d =>
    if d.ftype == "image" then
      some { url := d.url, thumbnail := d.thumbnail.getD d.url, size := d.size,
             dimensions := d.dimensions }
    else none)

/-- The video URL after the file loop: each saved video overwrites it. -/
def lastVideoUrl (files : List (Option SaveDesc)) (init : String) : String :=
  files.foldl (fun v f =>
    match f with
    | some d => if d.ftype == "video" then d.url else v
    | none => v) init

/-- Model of `file_count`: every successfully saved file counts. -/
def savedFileCount (files : List (Option SaveDesc)) : Nat := (files.filterMap id).length

/-- The `media_type` accumulator of `save_content` (app.py lines
1101-1104). -/
def mediaTypeOf (files : List (Option SaveDesc)) : String :=
  files.foldl (fun mt f =>
    match f with
    | some d =>
      if d.ftype == "image" then (if mt == "" || mt == "image" then "image" else "mixed")
      else if d.ftype == "video" then (if mt == "" || mt == "video" then "video" else "mixed")
      else mt
    | none => mt) ""

/-- Model of `tags_json` as computed by `save_content` (app.py lines 1111-1115):
an absent key defaults to `[]` and is dumped as `"[]"`. -/
def tagsJsonPost (t : TagsField) : String :=
  match t with
  | TagsField.absent => jsonDumps []
  | TagsField.list l => jsonDumps l
  | TagsField.str s => s

/-- Response and post-state of `save_content`. -/
structure SaveContentResult where
  success : Bool
  status : Nat
  contentId : String
  imageUrls : List String
  db : List ContentRow
deriving Repr, DecidableEq

/-- Model of `save_content` (app.py lines 1050-1180): authenticate, ingest files,
then `INSERT OR REPLACE` the row — columns absent from the column list
(`views`, `likes`, `shares`) revert to their declared defaults, and
`status`/`created_date`/`updated_date` are written afresh. -/
def save_content (sessions : List Session) (admins : List Nat) (token : String) (tnow : Nat)
    (db : List ContentRow) (payload : ContentPayload) (files : List (Option SaveDesc))
    (freshId : String) (now : String) : SaveContentResult :=
  match checkAuth sessions admins token tnow with
  | none => { success := false, status := 401, contentId := "", imageUrls := [], db := db }
  | some _ =>
    let cid := match payload.id with
      | some s => if s = "" then freshId else s
      | none => freshId
    let imgs := ingestedImages files
    let vid := lastVideoUrl files (payload.videoUrl.getD "")
    let newRow : ContentRow := {
      id := cid,
      ctype := payload.ctype.getD "post",
      title := payload.title.getD "",
      text := payload.text.getD "",
      category := payload.category.getD "General",
      imageUrls := imgs,
      videoUrl := vid,
      createdDate := now,
      updatedDate := now,
      status := "Active",
      mediaType := mediaTypeOf files,
      fileCount := savedFileCount files,
      style := payload.style.getD "default",
      priority := payload.priority.getD 0,
      tags := tagsJsonPost payload.tags,
      views := 0, likes := 0, shares := 0,
      author := payload.author.getD "KC Jain",
      featured := payload.featured.getD false,
      language := payload.language.getD "en",
      seoTitle := payload.seoTitle.getD "",
      seoDescription := payload.seoDescription.getD "",
      seoKeywords := payload.seoKeywords.getD "" }
    { success := true, status := 200, contentId := cid,
      imageUrls := imgs.map ImageDesc.url,
      db := db.filter (fun r => !(r.id == cid)) ++ [newRow] }

/-- Response and post-state of `update_content`. -/
structure UpdateContentResult where
  success : Bool
  status : Nat
  db : List ContentRow
deriving Repr, DecidableEq

/-- Model of `tags_json` as computed by `update_content` (app.py lines 1260-1264):
a non-list value falls back to the stored tags only when falsy. -/
def tagsJsonPut (t : TagsField) (existingTags : String) : String :=
  match t with
  | TagsField.absent => jsonDumps []
  | TagsField.list l => jsonDumps l
  | TagsField.str s => if s = "" then existingTags else s

/-- Model of `update_content` (app.py lines 1182-1334): 404 when no row has the
id (no status filter), new images replace the stored list only when at
least one was ingested, each scalar column falls back to the stored
value when absent from the payload.  The handler never assigns its
`media_type` variable, so the stored media type is always retained. -/
def update_content (sessions : List Session) (admins : List Nat) (token : String) (tnow : Nat)
    (db : List ContentRow) (cid : String) (payload : ContentPayload)
    (files : List (Option SaveDesc)) (now : String) : UpdateContentResult :=
  match checkAuth sessions admins token tnow with
  | none => { success := false, status := 401, db := db }
  | some _ =>
    match db.find? (fun r => r.id == cid) with
    | none => { success := false, status := 404, db := db }
    | some existing =>
      let newImgs := ingestedImages files
      let vid := lastVideoUrl files (payload.videoUrl.getD existing.videoUrl)
      let imgs := if newImgs.isEmpty then existing.imageUrls else newImgs
      let cnt := savedFileCount files
      let row : ContentRow := { existing with
        ctype := payload.ctype.getD existing.ctype,
        title := payload.title.getD existing.title,
        text := payload.text.getD existing.text,
        category := payload.category.getD existing.category,
        imageUrls := imgs,
        videoUrl := vid,
        updatedDate := now,
        mediaType := existing.mediaType,
        fileCount := if cnt = 0 then existing.fileCount else cnt,
        style := payload.style.getD existing.style,
        priority := payload.priority.getD existing.priority,
        tags := tagsJsonPut payload.tags existing.tags,
        author := payload.author.getD existing.author,
        featured := payload.featured.getD existing.featured,
        language := payload.language.getD existing.language,
        seoTitle := payload.seoTitle.getD existing.seoTitle,
        seoDescription := payload.seoDescription.getD existing.seoDescription,
        seoKeywords := payload.seoKeywords.getD existing.seoKeywords }
      { success := true, status := 200,
        db := db.map (fun r => if r.id == cid then row else r) }

/-- Model of `COUNT(*)` of Active rows of one content type (app.py lines
2197-2207). -/
def countActiveType (db : List ContentRow) (t : String) : Nat :=
  (db.filter (fun r => r.ctype == t && r.status == "Active")).length

/-- The `totalContent` field of `get_stats` (app.py line 2244):
the sum of the four per-type counts. -/
def statsTotalContent (db : List ContentRow) : Nat :=
  countActiveType db "case" + countActiveType db "post"
  + countActiveType db "blog" + countActiveType db "announcement"

/-- One row of the `qr_data` table (app.py lines 100-138);
`fertilizerSchedule`/`pestControl` are never written by the insert. -/
structure QrRow where
  id : String
  treeId : String
  treeName : String
  scientificName : String
  plantedDate : String
  location : String
  coordinates : String
  plantedBy : String
  maintenanceBy : String
  treeAge : String
  treeHeight : String
  description : String
  healthStatus : String
  lastMaintenance : String
  nextMaintenance : String
  wateringSchedule : String
  qrCodeUrl : String
  treeImageUrls : List ImageDesc
  treeVideoUrl : String
  createdDate : String
  updatedDate : String
  status : String
  qrStyle : String
  qrScanCount : Nat
  qrDownloadCount : Nat
  qrPrintCount : Nat
  treeAgeYears : Option Int
  treeAgeMonths : Option Int
  girthSize : String
  canopySize : String
  soilType : String
  wateringFrequency : String
  fertilizerSchedule : Option String
  pestControl : Option String
  specialNotes : String
deriving Repr, DecidableEq

/-- Sort predicate of `ORDER BY created_date DESC` (app.py line 1414). -/
def qrLe (a b : QrRow) : Bool :=
  !(compare b.createdDate a.createdDate == Ordering.gt)

/-- Model of `get_all_qr` (app.py lines 1389-1476): Active rows under the health
and location (`LIKE '%..%'`, ASCII-case-insensitive) filters, ordered,
paginated. -/
def get_all_qr (db : List QrRow) (hf lf : Option String) (lim off : Nat) : List QrRow :=
  let pred := fun (r : QrRow) =>
    r.status == "Active"
    && (match hf with
        | some hs => r.healthStatus == hs
        | none => true)
    && (match lf with
        | some l => strContainsSub (strLower l) (strLower r.location)
        | none => true)
  (((db.filter pred).mergeSort qrLe).drop off).take lim

/-- Model of `get_qr` (app.py lines 1478-1535): fetch by id with
`status = "Active"` (404 → `none`), then increment the scan counter. -/
def get_qr (db : List QrRow) (qid : String) : Option QrRow × List QrRow :=
  match db.find? (fun r => r.id == qid && r.status == "Active") with
  | none => (none, db)
  | some r =>
    (some r,
     db.map (fun x => if x.id == qid then { x with qrScanCount := x.qrScanCount + 1 } else x))

/-- Model of `delete_qr` (app.py lines 1908-1958): authenticate, then
`UPDATE qr_data SET status = "Inactive" WHERE id = ?`. -/
def delete_qr (sessions : List Session) (admins : List Nat) (token : String) (tnow : Nat)
    (db : List QrRow) (qid : String) : EndpointResult × List QrRow :=
  match checkAuth sessions admins token tnow with
  | none => ({ success := false, status := 401 }, db)
  | some _ =>
    ({ success := true, status := 200 },
     db.map (fun r => if r.id == qid then { r with status := "Inactive" } else r))

/-- The `data` object of the QR POST body; `none` means absent. -/
structure QrPayload where
  treeId : Option String := none
  treeName : Option String := none
  scientificName : Option String := none
  plantedDate : Option String := none
  location : Option String := none
  coordinates : Option String := none
  plantedBy : Option String := none
  maintenanceBy : Option String := none
  treeAge : Option String := none
  treeHeight : Option String := none
  description : Option String := none
  healthStatus : Option String := none
  lastMaintenance : Option String := none
  nextMaintenance : Option String := none
  wateringSchedule : Option String := none
  qrStyle : Option String := none
  girthSize : Option String := none
  canopySize : Option String := none
  soilType : Option String := none
  wateringFrequency : Option String := none
  specialNotes : Option String := none
deriving Repr, DecidableEq

/-- Uppercase hexadecimal digit characters, as produced by
`uuid4().hex[:8].upper()`. -/
def hexUpperChar (d : Fin 16) : Char := ("0123456789ABCDEF".toList).getD d.val 'X'

/-- Model of `f"TREE-{uuid.uuid4().hex[:8].upper()}"` (app.py line 1564); `u` is
the digit sequence of `uuid4().hex`. -/
def qrIdOf (u : List (Fin 16)) : String :=
  "TREE-" ++ String.mk ((u.take 8).map hexUpperChar)

/-- Model of `re.sub(r'[^a-zA-Z0-9]', '', treeName)[:20]` (app.py line 1629). -/
def cleanTreeName (s : String) : String :=
  String.mk ((s.toList.filter Char.isAlphanum).take 20)

/-- Response and post-state of `generate_qr`. -/
structure GenerateQrResult where
  success : Bool
  status : Nat
  qrId : String
  qrCodeUrl : String
  db : List QrRow
deriving Repr, DecidableEq

/-- Model of `generate_qr` (app.py lines 1537-1754).  `u` is the fresh
`uuid4().hex` digit sequence for the id, `fnHex` the 4-hex-char filename
suffix, `styledOk` whether compositing the captioned variant succeeded
(it falls back to the plain code), and `parsedDays` the day-delta of the
planted date when it is present and parseable (`none` otherwise — the
age fields are then silently omitted). -/
def generate_qr (sessions : List Session) (admins : List Nat) (token : String) (tnow : Nat)
    (db : List QrRow) (payload : QrPayload) (files : List (Option SaveDesc))
    (u : List (Fin 16)) (fnHex : String) (styledOk : Bool) (parsedDays : Option Int)
    (now : String) : GenerateQrResult :=
  match checkAuth sessions admins token tnow with
  | none => { success := false, status := 401, qrId := "", qrCodeUrl := "", db := db }
  | some _ =>
    let qrId := qrIdOf u
    let imgs := ingestedImages files
    let vid := lastVideoUrl files ""
    let qrFilename :=
      "qr_" ++ qrId ++ "_" ++ cleanTreeName (payload.treeName.getD "tree") ++ "_" ++ fnHex ++ ".png"
    let qrCodeUrl :=
      if styledOk then "/uploads/qrcodes/" ++ ("styled_" ++ qrFilename)
      else "/uploads/qrcodes/" ++ qrFilename
    let years := parsedDays.map (fun d => Int.fdiv d 365)
    let months := parsedDays.map (fun d => Int.fdiv (Int.fmod d 365) 30)
    let newRow : QrRow := {
      id := qrId,
      treeId := payload.treeId.getD "",
      treeName := payload.treeName.getD "",
      scientificName := payload.scientificName.getD "",
      plantedDate := payload.plantedDate.getD now,
      location := payload.location.getD "",
      coordinates := payload.coordinates.getD "",
      plantedBy := payload.plantedBy.getD "",
      maintenanceBy := payload.maintenanceBy.getD "",
      treeAge := (match years with
        | some y => if y ≠ 0 then toString y else ""
        | none => ""),
      treeHeight := payload.treeHeight.getD "",
      description := payload.description.getD "",
      healthStatus := payload.healthStatus.getD "Good",
      lastMaintenance := payload.lastMaintenance.getD "",
      nextMaintenance := payload.nextMaintenance.getD "",
      wateringSchedule := payload.wateringSchedule.getD "",
      qrCodeUrl := qrCodeUrl,
      treeImageUrls := imgs,
      treeVideoUrl := vid,
      createdDate := now,
      updatedDate := now,
      status := "Active",
      qrStyle := payload.qrStyle.getD "default",
      qrScanCount := 0,
      qrDownloadCount := 0,
      qrPrintCount := 0,
      treeAgeYears := years,
      treeAgeMonths := months,
      girthSize := payload.girthSize.getD "",
      canopySize := payload.canopySize.getD "",
      soilType := payload.soilType.getD "",
      wateringFrequency := payload.wateringFrequency.getD "",
      fertilizerSchedule := none,
      pestControl := none,
      specialNotes := payload.specialNotes.getD "" }
    { success := true, status := 200, qrId := qrId, qrCodeUrl := qrCodeUrl,
      db := newRow :: db }

/-- The parse state of the `metadata` column of `profile_config`:
empty/NULL, valid JSON (with or without a `version` key), or text that
`json.loads` rejects. -/
inductive MetaInfo where
  | absent
  | parsed (version : Option Nat)
  | invalid
deriving Repr, DecidableEq

/-- The `profile-image` row of `profile_config` (app.py lines 141-151). -/
structure ProfileRow where
  value : String
  thumbnail : String
  updatedAt : String
  metadata : MetaInfo
  version : Nat
  createdAt : String
deriving Repr, DecidableEq

/-- The version computation of `update_profile` (app.py lines
2135-2142): read the version out of the old metadata JSON (default 0)
and add 1; fall back to the version column only when the metadata does
not parse; start at 1 when there is no row. -/
def computeProfileVersion (old : Option ProfileRow) : Nat :=
  match old with
  | none => 1
  | some r =>
    match r.metadata with
    | MetaInfo.absent => 1
    | MetaInfo.parsed v => v.getD 0 + 1
    | MetaInfo.invalid => if r.version ≠ 0 then r.version + 1 else 2

/-- Response and post-state of `update_profile`. -/
structure ProfileUpdateResult where
  success : Bool
  status : Nat
  version : Nat
  profile : Option ProfileRow
  disk : List String
deriving Repr, DecidableEq

/-- Model of `update_profile` — `POST /api/profile` (app.py lines 2084-2187):
authenticate, save the new image (`saved = none` when
`save_base64_file` failed → 500), delete the old file from disk unless
its path is empty or contains `default-profile`, compute the version,
and upsert the row (the new metadata records the computed version;
`created_at` is kept via `COALESCE`).  `disk` lists paths relative to
the uploads folder and already contains the freshly saved files. -/
def update_profile (sessions : List Session) (admins : List Nat) (token : String) (tnow : Nat)
    (old : Option ProfileRow) (disk : List String) (saved : Option SaveDesc)
    (now : String) : ProfileUpdateResult :=
  match checkAuth sessions admins token tnow with
  | none => { success := false, status := 401, version := 0, profile := old, disk := disk }
  | some _ =>
    match saved with
    | none => { success := false, status := 500, version := 0, profile := old, disk := disk }
    | some d =>
      let disk1 := match old with
        | some r =>
          let oldPath := pyReplace r.value "/uploads/" ""
          if oldPath ≠ "" ∧ !(strContainsSub "default-profile" oldPath) then
            disk.filter (fun f => !(f == oldPath))
          else disk
        | none => disk
      let ver := computeProfileVersion old
      let newRow : ProfileRow := {
        value := d.url,
        thumbnail := d.thumbnail.getD d.url,
        updatedAt := now,
        metadata := MetaInfo.parsed (some ver),
        version := ver,
        createdAt := (old.map ProfileRow.createdAt).getD now }
      { success := true, status := 200, version := ver, profile := some newRow, disk := disk1 }

/-- The `profile-image` row inserted by `init_db` (app.py lines
313-324): the default placeholder with version column 1 and a metadata
blob that carries no `version` key. -/
def initProfileRow : ProfileRow :=
  { value := "/uploads/profile/default-profile.jpg",
    thumbnail := "/uploads/profile/default-profile.jpg",
    updatedAt := "2025-01-01T00:00:00",
    metadata := MetaInfo.parsed none,
    version := 1,
    createdAt := "2025-01-01T00:00:00" }

/-- A character of the class `[0-9A-F]`. -/
def isUpperHexDigitChar (c : Char) : Bool :=
  c.isDigit || ('A' ≤ c && c ≤ 'F')

/-- Whether a string matches `TREE-[0-9A-F]{8}` exactly. -/
def matchesTreePattern (s : String) : Bool :=
  (s.toList.take 5 == "TREE-".toList)
  && (s.toList.drop 5).length == 8
  && (s.toList.drop 5).all isUpperHexDigitChar

/-- A session used to exercise the authenticated endpoints. -/
def wSession : Session := { token := "tok", userId := 7, expiresAt := 1000 }

/-- A stored Active content row used as a concrete pre-state. -/
def sampleActiveRow : ContentRow :=
  { id := "c1", ctype := "case", title := "Landmark", text := "body",
    category := "General",
    imageUrls := [{ url := "/uploads/images/x.jpg", thumbnail := "/uploads/thumbnails/thumb_x.jpg",
                    size := 5, dimensions := some (10, 10) }],
    videoUrl := "", createdDate := "2025-06-01T00:00:00", updatedDate := "2025-06-01T00:00:00",
    status := "Active", mediaType := "image", fileCount := 1, style := "default",
    priority := 2, tags := "[]", views := 3, likes := 1, shares := 0,
    author := "KC Jain", featured := false, language := "en",
    seoTitle := "", seoDescription := "", seoKeywords := "" }

/-- A profile row as written by a previous successful `POST /api/profile`:
its metadata records the same version as the version column. -/
def wProfileRow : ProfileRow :=
  { value := "/uploads/profile/old.jpg", thumbnail := "/uploads/profile/oldthumb.jpg",
    updatedAt := "2025-06-01T00:00:00", metadata := MetaInfo.parsed (some 3),
    version := 3, createdAt := "2025-01-01T00:00:00" }

/-- A freshly saved profile image descriptor. -/
def wSaveDesc : SaveDesc :=
  { url := "/uploads/profile/new.jpg", thumbnail := some "/uploads/thumbnails/thumb_new.jpg",
    ftype := "image", size := 5, dimensions := some (100, 100) }

/-- An image upload whose decoded payload exceeds the 10MB ceiling. -/
def oversizedUpload : Base64Upload :=
  { filename := "big.jpg", dataSize := MAX_IMAGE_SIZE + 1, imageInfo := some (100, 100) }

/-- A well-formed 4000×2000 image upload under the size ceiling. -/
def wellFormedUpload : Base64Upload :=
  { filename := "pic.jpg", dataSize := 1000, imageInfo := some (4000, 2000) }

/-! ### Helper lemmas -/

theorem find?_map_of_pred {α : Type} (p : α → Bool) (f : α → α) (l : List α)
    (hp : ∀ x, p (f x) = p x) :
    (l.map f).find? p = (l.find? p).map f := by
  induction l with
  | nil => rfl
  | cons x tl ih =>
    by_cases hx : p x = true
    · rw [List.map_cons, List.find?_cons_of_pos _ ((hp x).trans hx),
        List.find?_cons_of_pos _ hx]
      rfl
    · rw [List.map_cons,
        List.find?_cons_of_neg _ (by rw [hp x]; exact hx),
        List.find?_cons_of_neg _ hx, ih]

theorem map_eq_self_of_skip {α : Type} (l : List α) (f : α → α)
    (h : ∀ x ∈ l, f x = x) : l.map f = l := by
  induction l with
  | nil => rfl
  | cons x tl ih =>
    rw [List.map_cons, h x (List.mem_cons_self x tl),
      ih (fun y hy => h y (List.mem_cons_of_mem x hy))]

theorem find?_eq_find?_filter {α : Type} (l : List α) (p q : α → Bool)
    (h : ∀ x, p x = true → q x = true) :
    l.find? p = (l.filter q).find? p := by
  induction l with
  | nil => rfl
  | cons x tl ih =>
    by_cases hx : p x = true
    · rw [List.find?_cons_of_pos _ hx, List.filter_cons_of_pos (h x hx),
        List.find?_cons_of_pos _ hx]
    · by_cases hq : q x = true
      · rw [List.find?_cons_of_neg _ hx, List.filter_cons_of_pos hq,
          List.find?_cons_of_neg _ hx, ih]
      · rw [List.find?_cons_of_neg _ hx, List.filter_cons_of_neg hq, ih]

theorem filter_token_sRun (tok : String) (es : List SEvent) :
    ∀ S : List Session,
      (∀ e ∈ es, e ≠ SEvent.logout tok) →
      (∀ s, SEvent.login s ∈ es → s.token ≠ tok) →
      (sRun S es).filter (fun s => s.token == tok)
        = S.filter (fun s => s.token == tok) := by
  induction es with
  | nil => intro S _ _; rfl
  | cons e tl ih =>
    intro S h1 h2
    have hstep : sRun S (e :: tl) = sRun (sStep S e) tl := rfl
    rw [hstep, ih (sStep S e) (fun x hx => h1 x (List.mem_cons_of_mem e hx))
      (fun s hs => h2 s (List.mem_cons_of_mem e hs))]
    cases e with
    | login s =>
      have hs : s.token ≠ tok := h2 s (List.mem_cons_self _ tl)
      simp [sStep, List.filter_cons, hs]
    | logout t =>
      have ht : t ≠ tok := by
        intro hEq
        exact h1 (SEvent.logout t) (List.mem_cons_self _ tl) (by rw [hEq])
      by_cases ht0 : t = ""
      · simp [sStep, logout, ht0]
      · rw [show sStep S (SEvent.logout t) = List.filter (fun s => !(s.token == t)) S from by
          simp [sStep, logout, ht0]]
        rw [List.filter_filter]
        apply List.filter_congr
        intro x _
        by_cases hx : x.token = tok
        · have hxt : x.token ≠ t := by rw [hx]; exact fun hEq => ht hEq.symm
          simp [hx, hxt]
          exact fun hEq => ht hEq.symm
        · simp [hx]
    | readOnly => simp [sStep]

theorem natCeilDiv_le_of {num den k : Nat} (hden : 0 < den) (h : num ≤ k * den) :
    natCeilDiv num den ≤ k := by
  unfold natCeilDiv
  have hlt : num + den - 1 < (k + 1) * den := by
    have : (k + 1) * den = k * den + den := by ring
    omega
  have := (Nat.div_lt_iff_lt_mul hden).mpr hlt
  omega

theorem floorDiv_le_natCeilDiv {num den : Nat} (hden : 0 < den) :
    num / den ≤ natCeilDiv num den := by
  unfold natCeilDiv
  exact Nat.div_le_div_right (by omega)

theorem roundAspectW_bounds {num den A B k : Nat} (hden : 0 < den) (hk : 1 ≤ k)
    (h : num ≤ k * den) :
    1 ≤ roundAspectW num den A B ∧ roundAspectW num den A B ≤ k := by
  unfold roundAspectW
  have hc : natCeilDiv num den ≤ k := natCeilDiv_le_of hden h
  have hf : num / den ≤ k := le_trans (floorDiv_le_natCeilDiv hden) hc
  constructor
  · exact le_max_right _ 1
  · apply Nat.max_le.mpr
    refine ⟨?_, hk⟩
    split <;> [exact hc; exact hf]

theorem roundAspectH_bounds {num den w h x k : Nat} (hden : 0 < den) (hk : 1 ≤ k)
    (hle : num ≤ k * den) :
    1 ≤ roundAspectH num den w h x ∧ roundAspectH num den w h x ≤ k := by
  unfold roundAspectH
  have hc : natCeilDiv num den ≤ k := natCeilDiv_le_of hden hle
  have hf : num / den ≤ k := le_trans (floorDiv_le_natCeilDiv hden) hc
  constructor
  · exact le_max_right _ 1
  · apply Nat.max_le.mpr
    refine ⟨?_, hk⟩
    split
    · omega
    · split <;> [exact hc; exact hf]

theorem thumbFit_bounds (w h bw bh : Nat) (hw : 1 ≤ w) (hh : 1 ≤ h)
    (hbw : 1 ≤ bw) (hbh : 1 ≤ bh) :
    1 ≤ (thumbFit w h bw bh).1 ∧ (thumbFit w h bw bh).1 ≤ bw
    ∧ 1 ≤ (thumbFit w h bw bh).2 ∧ (thumbFit w h bw bh).2 ≤ bh := by
  unfold thumbFit
  split
  · rename_i hfit
    exact ⟨hw, hfit.1, hh, hfit.2⟩
  · split
    · rename_i hfit hbr
      have hnum : bh * w ≤ bw * h := by
        calc bh * w = w * bh := Nat.mul_comm _ _
        _ ≤ bw * h := hbr
      have := roundAspectW_bounds (A := w * bh) (B := h) hh hbw hnum
      exact ⟨this.1, this.2, hbh, le_refl bh⟩
    · rename_i hfit hbr
      have hnum : bw * h ≤ bh * w := by
        have : bw * h < w * bh := Nat.lt_of_not_le hbr
        calc bw * h ≤ w * bh := le_of_lt this
        _ = bh * w := Nat.mul_comm _ _
      have := roundAspectH_bounds (w := w) (h := h) (x := bw) hw hbh hnum
      exact ⟨hbw, le_refl bw, this.1, this.2⟩

theorem filter_replace_singleton {α : Type} (db : List α) (p : α → Bool) (x : α)
    (hx : p x = true) :
    (db.filter (fun r => !(p r)) ++ [x]).filter p = [x] := by
  rw [List.filter_append, List.filter_filter]
  have h1 : db.filter (fun a => p a && !(p a)) = [] := by
    rw [List.filter_eq_nil_iff]
    intro a _
    simp
  rw [h1, List.nil_append, List.filter_cons_of_pos hx, List.filter_nil]

theorem filter_self_of_all {α : Type} (l : List α) (p : α → Bool)
    (h : ∀ x ∈ l, p x = true) : l.filter p = l := by
  induction l with
  | nil => rfl
  | cons x tl ih =>
    rw [List.filter_cons_of_pos (h x (List.mem_cons_self x tl)),
      ih (fun y hy => h y (List.mem_cons_of_mem x hy))]

theorem lastVideoUrl_of_no_video (files : List (Option SaveDesc)) :
    ∀ init, (∀ d, some d ∈ files → d.ftype ≠ "video") →
      lastVideoUrl files init = init := by
  induction files with
  | nil => intro init _; rfl
  | cons f tl ih =>
    intro init hnv
    cases f with
    | none => exact ih init (fun d hd => hnv d (List.mem_cons_of_mem _ hd))
    | some d =>
      have hd : d.ftype ≠ "video" := hnv d (List.mem_cons_self _ tl)
      show lastVideoUrl tl (if d.ftype == "video" then d.url else init) = init
      rw [if_neg (by simpa using hd)]
      exact ih init (fun d2 hd2 => hnv d2 (List.mem_cons_of_mem _ hd2))

theorem find?_update_eq {α : Type} (db : List α) (p : α → Bool) (row : α) (e : α)
    (hsome : db.find? p = some e) (hrow : p row = true) :
    (db.map (fun r => if p r = true then row else r)).find? p = some row := by
  have hp : ∀ x, p (if p x = true then row else x) = p x := by
    intro x
    by_cases hx : p x = true
    · rw [if_pos hx, hrow, hx]
    · rw [if_neg hx]
  rw [find?_map_of_pred p _ db hp, hsome]
  show some (if p e = true then row else e) = some row
  rw [if_pos (List.find?_some hsome)]

theorem qrIdOf_matches (u : List (Fin 16)) (hu : 8 ≤ u.length) :
    matchesTreePattern (qrIdOf u) = true := by
  have hdata : (qrIdOf u).toList
      = 'T' :: 'R' :: 'E' :: 'E' :: '-' :: (u.take 8).map hexUpperChar := rfl
  unfold matchesTreePattern
  rw [hdata]
  have h1 : ('T' :: 'R' :: 'E' :: 'E' :: '-' :: (u.take 8).map hexUpperChar).take 5
      = ['T', 'R', 'E', 'E', '-'] := rfl
  have h2 : ('T' :: 'R' :: 'E' :: 'E' :: '-' :: (u.take 8).map hexUpperChar).drop 5
      = (u.take 8).map hexUpperChar := rfl
  rw [h1, h2]
  have hlen : ((u.take 8).map hexUpperChar).length = 8 := by
    rw [List.length_map, List.length_take]
    omega
  have hall : ((u.take 8).map hexUpperChar).all isUpperHexDigitChar = true := by
    apply List.all_eq_true.mpr
    intro c hc
    obtain ⟨d, _, rfl⟩ := List.mem_map.mp hc
    exact (by decide : ∀ d : Fin 16, isUpperHexDigitChar (hexUpperChar d) = true) d
  rw [hlen, hall]
  decide

/-! ### Claim theorems -/

/-- C8: in every `GET /api/stats` response the `totalContent` field
equals `cases + posts + blogs + announcements` (it is computed as that
sum, app.py line 2244), and that sum equals the number of content rows
with status Active whose type is one of case, post, blog,
announcement. -/
theorem c8_stats_totals (db : List ContentRow) :
    statsTotalContent db
      = countActiveType db "case" + countActiveType db "post"
        + countActiveType db "blog" + countActiveType db "announcement"
    ∧ statsTotalContent db
      = (db.filter (fun r => r.status == "Active"
          && (r.ctype == "case" || r.ctype == "post" || r.ctype == "blog"
              || r.ctype == "announcement"))).length := by
  refine ⟨rfl, ?_⟩
  induction db with
  | nil => rfl
  | cons r tl ih =>
    simp only [statsTotalContent, countActiveType, List.filter_cons] at ih ⊢
    by_cases hs : r.status = "Active"
    · by_cases h1 : r.ctype = "case" <;> by_cases h2 : r.ctype = "post" <;>
        by_cases h3 : r.ctype = "blog" <;> by_cases h4 : r.ctype = "announcement" <;>
        simp_all <;> omega
    · simp_all

/-- C10: an authenticated `DELETE /api/content/{id}` or
`DELETE /api/qr/{id}` whose id matches no row returns success (never
NotFound) and leaves the store unchanged. -/
theorem c10_delete_missing_id
    (sessions : List Session) (admins : List Nat) (token : String) (tnow uid : Nat)
    (db : List ContentRow) (qdb : List QrRow) (cid qid : String)
    (hauth : checkAuth sessions admins token tnow = some uid)
    (hc : ∀ r ∈ db, r.id ≠ cid) (hq : ∀ r ∈ qdb, r.id ≠ qid) :
    (delete_content sessions admins token tnow db cid).1.success = true
    ∧ (delete_content sessions admins token tnow db cid).1.status = 200
    ∧ (delete_content sessions admins token tnow db cid).2 = db
    ∧ (delete_qr sessions admins token tnow qdb qid).1.success = true
    ∧ (delete_qr sessions admins token tnow qdb qid).1.status = 200
    ∧ (delete_qr sessions admins token tnow qdb qid).2 = qdb := by
  unfold delete_content delete_qr
  rw [hauth]
  refine ⟨rfl, rfl, ?_, rfl, rfl, ?_⟩
  · apply map_eq_self_of_skip
    intro x hx
    rw [if_neg]
    simpa using hc x hx
  · apply map_eq_self_of_skip
    intro x hx
    rw [if_neg]
    simpa using hq x hx

/-- Witness for C10 at a concrete store and id. -/
theorem c10_delete_missing_id_witness :
    (delete_content [wSession] [7] "tok" 0 [sampleActiveRow] "nope").1.success = true
    ∧ (delete_content [wSession] [7] "tok" 0 [sampleActiveRow] "nope").1.status = 200
    ∧ (delete_content [wSession] [7] "tok" 0 [sampleActiveRow] "nope").2 = [sampleActiveRow]
    ∧ (delete_qr [wSession] [7] "tok" 0 [] "nope").1.success = true
    ∧ (delete_qr [wSession] [7] "tok" 0 [] "nope").1.status = 200
    ∧ (delete_qr [wSession] [7] "tok" 0 [] "nope").2 = [] :=
  c10_delete_missing_id [wSession] [7] "tok" 0 7 [sampleActiveRow] [] "nope" "nope"
    (by decide) (by decide) (by decide)

/-- C9: an authenticated `POST /api/content` whose payload carries the
id of an existing row succeeds — duplicate ids are never rejected — and
the `INSERT OR REPLACE` leaves exactly one row with that id: the new
one, with status Active, both timestamps set to the request time, and
the `views`/`likes`/`shares` counters back at their column defaults. -/
theorem c9_duplicate_id_replaces
    (sessions : List Session) (admins : List Nat) (token : String) (tnow uid : Nat)
    (db : List ContentRow) (payload : ContentPayload) (files : List (Option SaveDesc))
    (freshId now eid : String) (existing : ContentRow)
    (hauth : checkAuth sessions admins token tnow = some uid)
    (hid : payload.id = some eid) (hne : eid ≠ "")
    (hex : existing ∈ db) (hexid : existing.id = eid) :
    (save_content sessions admins token tnow db payload files freshId now).success = true
    ∧ (save_content sessions admins token tnow db payload files freshId now).status = 200
    ∧ (save_content sessions admins token tnow db payload files freshId now).contentId = eid
    ∧ ∃ row,
        (save_content sessions admins token tnow db payload files freshId now).db.filter
          (fun r => r.id == eid) = [row]
        ∧ row.status = "Active" ∧ row.createdDate = now ∧ row.updatedDate = now
        ∧ row.views = 0 ∧ row.likes = 0 ∧ row.shares = 0 := by
  simp only [save_content, hauth, hid, if_neg hne]
  refine ⟨trivial, trivial, trivial, ?_⟩
  exact ⟨_, filter_replace_singleton db (fun r => r.id == eid) _ (by simp),
    rfl, rfl, rfl, rfl, rfl, rfl⟩

/-- Witness for C9: replacing the stored row `c1` (which has 3 views)
through a duplicate-id POST. -/
theorem c9_duplicate_id_replaces_witness :
    (save_content [wSession] [7] "tok" 0 [sampleActiveRow]
        { id := some "c1" } [] "fresh" "2026-02-02T00:00:00").success = true
    ∧ (save_content [wSession] [7] "tok" 0 [sampleActiveRow]
        { id := some "c1" } [] "fresh" "2026-02-02T00:00:00").status = 200
    ∧ (save_content [wSession] [7] "tok" 0 [sampleActiveRow]
        { id := some "c1" } [] "fresh" "2026-02-02T00:00:00").contentId = "c1"
    ∧ ∃ row,
        (save_content [wSession] [7] "tok" 0 [sampleActiveRow]
          { id := some "c1" } [] "fresh" "2026-02-02T00:00:00").db.filter
          (fun r => r.id == "c1") = [row]
        ∧ row.status = "Active" ∧ row.createdDate = "2026-02-02T00:00:00"
        ∧ row.updatedDate = "2026-02-02T00:00:00"
        ∧ row.views = 0 ∧ row.likes = 0 ∧ row.shares = 0 :=
  c9_duplicate_id_replaces [wSession] [7] "tok" 0 7 [sampleActiveRow]
    { id := some "c1" } [] "fresh" "2026-02-02T00:00:00" "c1" sampleActiveRow
    (by decide) rfl (by decide) (by decide) (by decide)

/-- C2 counterexample: a row soft-deleted through the DELETE endpoint is
*not* retrievable by direct id lookup — `GET /api/content/{id}` filters
on `status = "Active"` (app.py line 992) and returns 404 — refuting the
claim's "still retrievable by direct id lookup" conjunct. -/
theorem c2_counterexample :
    ((delete_content [wSession] [7] "tok" 0 [sampleActiveRow] "c1").2.any
      (fun r => r.id == "c1" && r.status == "Inactive") = true)
    ∧ (get_content (delete_content [wSession] [7] "tok" 0 [sampleActiveRow] "c1").2 "c1").1
        = none := by
  decide

/-- C2 (amended): soft-deleted content/QR rows are absent from the list
endpoints *and* direct id GETs return 404 (both filter on Active); the
row itself stays in the table with status Inactive, and deleting the
same id twice succeeds both times and is idempotent. -/
theorem c2_soft_delete_amended
    (sessions : List Session) (admins : List Nat) (token : String) (tnow uid : Nat)
    (db : List ContentRow) (qdb : List QrRow) (cid qid : String)
    (tf cf : Option String) (ff : Bool) (hf lf : Option String) (lim off : Nat)
    (hauth : checkAuth sessions admins token tnow = some uid) :
    (∀ r ∈ get_all_content db tf cf ff lim off, r.status = "Active")
    ∧ (∀ r ∈ get_all_qr qdb hf lf lim off, r.status = "Active")
    ∧ ((∀ r ∈ db, r.id = cid → r.status = "Inactive") →
        (get_content db cid).1 = none ∧ (get_content db cid).2 = db)
    ∧ ((∀ r ∈ qdb, r.id = qid → r.status = "Inactive") →
        (get_qr qdb qid).1 = none ∧ (get_qr qdb qid).2 = qdb)
    ∧ (delete_content sessions admins token tnow db cid).1 = { success := true, status := 200 }
    ∧ (delete_content sessions admins token tnow
        ((delete_content sessions admins token tnow db cid).2) cid).2
        = (delete_content sessions admins token tnow db cid).2
    ∧ (∀ r ∈ (delete_content sessions admins token tnow db cid).2,
        r.id = cid → r.status = "Inactive")
    ∧ (delete_content sessions admins token tnow db cid).2.length = db.length := by
  refine ⟨?_, ?_, ?_, ?_, ?_, ?_, ?_, ?_⟩
  · intro r hr
    have h2 := List.mem_of_mem_drop (List.mem_of_mem_take hr)
    have h3 := List.mem_filter.mp (List.mem_mergeSort.mp h2)
    have h4 := h3.2
    simp only [contentListPred, Bool.and_eq_true, beq_iff_eq] at h4
    exact h4.1.1.1
  · intro r hr
    have h2 := List.mem_of_mem_drop (List.mem_of_mem_take hr)
    have h3 := List.mem_filter.mp (List.mem_mergeSort.mp h2)
    have h4 := h3.2
    simp only [Bool.and_eq_true, beq_iff_eq] at h4
    exact h4.1.1
  · intro hinact
    have hnone : db.find? (fun r => r.id == cid && r.status == "Active") = none := by
      rw [List.find?_eq_none]
      intro x hx hcond
      simp only [Bool.and_eq_true, beq_iff_eq] at hcond
      have := hinact x hx hcond.1
      rw [this] at hcond
      exact absurd hcond.2 (by decide)
    unfold get_content
    rw [hnone]
    exact ⟨rfl, rfl⟩
  · intro hinact
    have hnone : qdb.find? (fun r => r.id == qid && r.status == "Active") = none := by
      rw [List.find?_eq_none]
      intro x hx hcond
      simp only [Bool.and_eq_true, beq_iff_eq] at hcond
      have := hinact x hx hcond.1
      rw [this] at hcond
      exact absurd hcond.2 (by decide)
    unfold get_qr
    rw [hnone]
    exact ⟨rfl, rfl⟩
  · unfold delete_content
    rw [hauth]
  · unfold delete_content
    rw [hauth]
    simp only [List.map_map]
    apply List.map_congr_left
    intro x _
    by_cases hx : x.id = cid <;> simp [Function.comp, hx]
  · unfold delete_content
    rw [hauth]
    intro r hr hrid
    simp only [List.mem_map] at hr
    obtain ⟨x, _, hfx⟩ := hr
    by_cases hx : x.id = cid
    · rw [← hfx]; simp [hx]
    · rw [← hfx] at hrid ⊢
      rw [if_neg (by simpa using hx)] at hrid
      exact absurd hrid hx
  · unfold delete_content
    rw [hauth]
    exact List.length_map _ _

/-- Witness for C2 (amended) at a concrete store: an Inactive row is
invisible to the list and the id GET but still counted in the table. -/
theorem c2_soft_delete_amended_witness :
    ((∀ r ∈ [{ sampleActiveRow with status := "Inactive" }], r.id = "c1" →
        r.status = "Inactive") →
      (get_content [{ sampleActiveRow with status := "Inactive" }] "c1").1 = none
      ∧ (get_content [{ sampleActiveRow with status := "Inactive" }] "c1").2
          = [{ sampleActiveRow with status := "Inactive" }])
    ∧ (delete_content [wSession] [7] "tok" 0 [{ sampleActiveRow with status := "Inactive" }]
        "c1").1 = { success := true, status := 200 }
    ∧ (delete_content [wSession] [7] "tok" 0 [{ sampleActiveRow with status := "Inactive" }]
        "c1").2.length = 1 := by
  have h := c2_soft_delete_amended [wSession] [7] "tok" 0 7
    [{ sampleActiveRow with status := "Inactive" }] [] "c1" "q1"
    none none false none none 100 0 (by decide)
  exact ⟨h.2.2.1, h.2.2.2.2.1, h.2.2.2.2.2.2.2⟩

/-- C4: a token issued by `login` passes `verify` and is accepted by
authenticated writes at any instant less than 24 hours after issuance,
whatever other requests ran in between, as long as none of them was a
logout of that token (token freshness is the practical global
uniqueness of the random token); after `logout(token)` — from any
session state — the same token fails `verify` (401) and every
authenticated write with it is rejected with 401. -/
theorem c4_token_lifecycle
    (S0 : List Session) (admins : List Nat) (tok : String) (uid t tq : Nat)
    (es : List SEvent) (db : List ContentRow) (cid : String)
    (htok : tok ≠ "")
    (hadmin : admins.contains uid = true)
    (hfresh : ∀ s ∈ S0, s.token ≠ tok)
    (hnologout : ∀ e ∈ es, e ≠ SEvent.logout tok)
    (hnologin : ∀ s, SEvent.login s ∈ es → s.token ≠ tok)
    (h24 : tq < t + 86400) :
    verify_token (sRun (login_session S0 tok uid t) es) admins tok tq = true
    ∧ checkAuth (sRun (login_session S0 tok uid t) es) admins tok tq = some uid
    ∧ (delete_content (sRun (login_session S0 tok uid t) es) admins tok tq db cid).1.success
        = true
    ∧ (∀ (S : List Session) (t2 : Nat),
        verify_token (logout S tok) admins tok t2 = false
        ∧ checkAuth (logout S tok) admins tok t2 = none
        ∧ (delete_content (logout S tok) admins tok t2 db cid).1.success = false
        ∧ (delete_content (logout S tok) admins tok t2 db cid).1.status = 401) := by
  have hfilter :
      (sRun (login_session S0 tok uid t) es).filter (fun s => s.token == tok)
        = ({ token := tok, userId := uid, expiresAt := t + 86400 } : Session)
            :: S0.filter (fun s => s.token == tok) := by
    rw [filter_token_sRun tok es _ hnologout hnologin]
    unfold login_session
    rw [List.filter_cons_of_pos (by simp)]
  have hnil : S0.filter (fun s => s.token == tok) = [] := by
    rw [List.filter_eq_nil_iff]
    intro a ha
    simpa using hfresh a ha
  have hmem : ({ token := tok, userId := uid, expiresAt := t + 86400 } : Session)
      ∈ sRun (login_session S0 tok uid t) es := by
    apply List.mem_of_mem_filter (p := fun s => s.token == tok)
    rw [hfilter]
    exact List.mem_cons_self _ _
  have hauth2 : checkAuth (sRun (login_session S0 tok uid t) es) admins tok tq = some uid := by
    unfold checkAuth
    rw [if_neg htok]
    rw [find?_eq_find?_filter _ _ (fun s => s.token == tok)
      (by intro x hx; exact ((Bool.and_eq_true _ _).mp hx).1)]
    rw [hfilter, hnil]
    rw [List.find?_cons_of_pos _ (by simp [h24])]
    show (if admins.contains uid = true then some uid else none) = some uid
    rw [if_pos hadmin]
  refine ⟨?_, hauth2, ?_, ?_⟩
  · unfold verify_token
    rw [if_neg htok]
    apply List.any_eq_true.mpr
    refine ⟨_, hmem, ?_⟩
    show (tok == tok && decide (tq < t + 86400) && admins.contains uid) = true
    rw [beq_self_eq_true, decide_eq_true h24, hadmin]
    rfl
  · unfold delete_content
    rw [hauth2]
  · intro S t2
    have hlog : logout S tok = S.filter (fun s => !(s.token == tok)) := by
      unfold logout
      rw [if_neg htok]
    have hnone : checkAuth (logout S tok) admins tok t2 = none := by
      have hf : (S.filter (fun s => !(s.token == tok))).find?
          (fun s => s.token == tok && decide (t2 < s.expiresAt)) = none := by
        rw [List.find?_eq_none]
        intro x hx hp
        have h1 := (List.mem_filter.mp hx).2
        have h2 := ((Bool.and_eq_true _ _).mp hp).1
        rw [h2] at h1
        exact absurd h1 (by decide)
      unfold checkAuth
      rw [if_neg htok, hlog, hf]
    have hver : verify_token (logout S tok) admins tok t2 = false := by
      unfold verify_token
      rw [if_neg htok, hlog]
      apply List.any_eq_false.mpr
      intro x hx hp
      have h1 := (List.mem_filter.mp hx).2
      have h2 := ((Bool.and_eq_true _ _).mp ((Bool.and_eq_true _ _).mp hp).1).1
      rw [h2] at h1
      exact absurd h1 (by decide)
    refine ⟨hver, hnone, ?_, ?_⟩
    · unfold delete_content
      rw [hnone]
    · unfold delete_content
      rw [hnone]

/-- Witness for C4 at a concrete trace: one login, one unrelated
read-only request, a verify 100 seconds later, then a logout. -/
theorem c4_token_lifecycle_witness :
    verify_token (sRun (login_session [] "tok" 7 0) [SEvent.readOnly]) [7] "tok" 100 = true
    ∧ checkAuth (sRun (login_session [] "tok" 7 0) [SEvent.readOnly]) [7] "tok" 100 = some 7
    ∧ (delete_content (sRun (login_session [] "tok" 7 0) [SEvent.readOnly]) [7] "tok" 100
        [sampleActiveRow] "c1").1.success = true
    ∧ verify_token (logout (sRun (login_session [] "tok" 7 0) [SEvent.readOnly]) "tok")
        [7] "tok" 100 = false
    ∧ checkAuth (logout (sRun (login_session [] "tok" 7 0) [SEvent.readOnly]) "tok")
        [7] "tok" 100 = none
    ∧ (delete_content (logout (sRun (login_session [] "tok" 7 0) [SEvent.readOnly]) "tok")
        [7] "tok" 100 [sampleActiveRow] "c1").1.status = 401 := by
  have h := c4_token_lifecycle [] [7] "tok" 7 0 100 [SEvent.readOnly] [sampleActiveRow] "c1"
    (by decide) (by decide) (by intro s hs; cases hs)
    (by intro e he hcontra; rw [hcontra] at he; simp at he)
    (by intro s hs; simp at hs) (by decide)
  have h4 := h.2.2.2 (sRun (login_session [] "tok" 7 0) [SEvent.readOnly]) 100
  exact ⟨h.1, h.2.1, h.2.2.1, h4.1, h4.2.1, h4.2.2.2⟩

/-- C1 counterexample: starting from the row `init_db` writes (version
column 1, metadata without a `version` key), a successful
`POST /api/profile` recomputes the version from the metadata —
`metadata.get('version', 0) + 1 = 1` — so the stored version stays at 1
instead of strictly increasing by 1. -/
theorem c1_counterexample :
    (update_profile [wSession] [7] "tok" 0 (some initProfileRow)
      ["profile/default-profile.jpg", "profile/new.jpg"] (some wSaveDesc)
      "2026-02-02T00:00:00").success = true
    ∧ (update_profile [wSession] [7] "tok" 0 (some initProfileRow)
      ["profile/default-profile.jpg", "profile/new.jpg"] (some wSaveDesc)
      "2026-02-02T00:00:00").version = 1
    ∧ initProfileRow.version = 1
    ∧ ¬ (update_profile [wSession] [7] "tok" 0 (some initProfileRow)
      ["profile/default-profile.jpg", "profile/new.jpg"] (some wSaveDesc)
      "2026-02-02T00:00:00").version = initProfileRow.version + 1 := by
  decide

/-- C1 (amended): `update_profile` computes the new version as the
`version` recorded in the previous row's metadata (default 0) plus 1,
not from the version column; for every row written by a previous
successful `POST /api/profile` — whose metadata version equals its
version column — the stored version therefore strictly increases by
exactly 1, but the first replace of the default-initialised row leaves
the version at 1.  The previous non-default image file is removed from
disk after the update completes. -/
theorem c1_profile_version_amended
    (sessions : List Session) (admins : List Nat) (token : String) (tnow uid : Nat)
    (old : Option ProfileRow) (disk : List String) (saved : Option SaveDesc)
    (now : String) (r : ProfileRow) (d : SaveDesc)
    (hauth : checkAuth sessions admins token tnow = some uid)
    (hold : old = some r)
    (hmeta : r.metadata = MetaInfo.parsed (some r.version))
    (hsaved : saved = some d) :
    (update_profile sessions admins token tnow old disk saved now).success = true
    ∧ (update_profile sessions admins token tnow old disk saved now).version = r.version + 1
    ∧ (update_profile sessions admins token tnow old disk saved now).profile.map
        ProfileRow.version = some (r.version + 1)
    ∧ (update_profile sessions admins token tnow old disk saved now).profile.map
        ProfileRow.metadata = some (MetaInfo.parsed (some (r.version + 1)))
    ∧ (pyReplace r.value "/uploads/" "" ≠ "" →
        strContainsSub "default-profile" (pyReplace r.value "/uploads/" "") = false →
        pyReplace r.value "/uploads/" "" ∉
          (update_profile sessions admins token tnow old disk saved now).disk) := by
  unfold update_profile
  rw [hauth, hold, hsaved]
  have hver : computeProfileVersion (some r) = r.version + 1 := by
    simp only [computeProfileVersion, hmeta]
    rfl
  refine ⟨rfl, ?_, ?_, ?_, ?_⟩
  · show computeProfileVersion (some r) = r.version + 1
    exact hver
  · show some (computeProfileVersion (some r)) = some (r.version + 1)
    rw [hver]
  · show some (MetaInfo.parsed (some (computeProfileVersion (some r))))
        = some (MetaInfo.parsed (some (r.version + 1)))
    rw [hver]
  · intro hne hdef
    show pyReplace r.value "/uploads/" "" ∉
      (if pyReplace r.value "/uploads/" "" ≠ ""
          ∧ (!strContainsSub "default-profile" (pyReplace r.value "/uploads/" "")) = true then
        List.filter (fun f => !(f == pyReplace r.value "/uploads/" "")) disk
      else disk)
    rw [if_pos ⟨hne, by rw [hdef]; rfl⟩]
    intro hmem
    exact absurd ((List.mem_filter.mp hmem).2) (by simp)

/-- Witness for C1 (amended): replacing a version-3 profile image bumps
the version to 4 and removes the old file `profile/old.jpg` from disk. -/
theorem c1_profile_version_amended_witness :
    (update_profile [wSession] [7] "tok" 0 (some wProfileRow)
      ["profile/old.jpg", "profile/new.jpg"] (some wSaveDesc) "2026-02-02T00:00:00").success
      = true
    ∧ (update_profile [wSession] [7] "tok" 0 (some wProfileRow)
      ["profile/old.jpg", "profile/new.jpg"] (some wSaveDesc) "2026-02-02T00:00:00").version
      = wProfileRow.version + 1
    ∧ pyReplace wProfileRow.value "/uploads/" "" ∉
        (update_profile [wSession] [7] "tok" 0 (some wProfileRow)
          ["profile/old.jpg", "profile/new.jpg"] (some wSaveDesc)
          "2026-02-02T00:00:00").disk := by
  have h := c1_profile_version_amended [wSession] [7] "tok" 0 7 (some wProfileRow)
    ["profile/old.jpg", "profile/new.jpg"] (some wSaveDesc) "2026-02-02T00:00:00"
    wProfileRow wSaveDesc (by decide) rfl (by decide) rfl
  exact ⟨h.1, h.2.1, h.2.2.2.2 (by decide) (by decide)⟩

/-- C3 counterexample: a `POST /api/content` whose only file is an
image with a decoded payload over 10MB does *not* fail: the size error
raised inside `save_base64_file` is caught there (`return None`), the
file loop skips the `None`, and the endpoint reports success 200 —
refuting "the upload operation fails with a size-limit error naming the
limit". -/
theorem c3_counterexample :
    (save_base64_file oversizedUpload "aaaa1111" "").result = none
    ∧ (save_content [wSession] [7] "tok" 0 [] {}
        [(save_base64_file oversizedUpload "aaaa1111" "").result] "content-x"
        "2026-02-02T00:00:00").success = true
    ∧ (save_content [wSession] [7] "tok" 0 [] {}
        [(save_base64_file oversizedUpload "aaaa1111" "").result] "content-x"
        "2026-02-02T00:00:00").status = 200
    ∧ (save_content [wSession] [7] "tok" 0 [] {}
        [(save_base64_file oversizedUpload "aaaa1111" "").result] "content-x"
        "2026-02-02T00:00:00").imageUrls = [] := by
  decide

/-- C3 (amended): an image upload whose decoded payload exceeds 10MB
aborts inside `save_base64_file` with an internal error naming the 10MB
limit, before anything is written, so no file for it remains on disk —
but the error is swallowed: the function returns `None`, and a
`POST /api/content` carrying such a file still succeeds with the file
silently skipped; no size-limit error is surfaced to the client. -/
theorem c3_oversized_image_amended
    (p : Base64Upload) (uniqueHex subfolder : String)
    (sessions : List Session) (admins : List Nat) (token : String) (tnow uid : Nat)
    (db : List ContentRow) (payload : ContentPayload) (freshId now : String)
    (hft : get_file_type p.filename = "image")
    (hsz : p.dataSize > MAX_IMAGE_SIZE)
    (hauth : checkAuth sessions admins token tnow = some uid) :
    (save_base64_file p uniqueHex subfolder).result = none
    ∧ (save_base64_file p uniqueHex subfolder).diskFiles = []
    ∧ (save_base64_file p uniqueHex subfolder).raised = some "Image size exceeds 10MB limit"
    ∧ strContainsSub "10MB" "Image size exceeds 10MB limit" = true
    ∧ (save_content sessions admins token tnow db payload
        [(save_base64_file p uniqueHex subfolder).result] freshId now).success = true
    ∧ (save_content sessions admins token tnow db payload
        [(save_base64_file p uniqueHex subfolder).result] freshId now).status = 200
    ∧ (save_content sessions admins token tnow db payload
        [(save_base64_file p uniqueHex subfolder).result] freshId now).imageUrls = [] := by
  have hfile : save_base64_file p uniqueHex subfolder =
      { result := none,
        raised := some ("Image size exceeds " ++ toString (MAX_IMAGE_SIZE / (1024 * 1024))
          ++ "MB limit"),
        diskFiles := [], thumbDims := none } := by
    simp only [save_base64_file]
    rw [hft, if_pos ⟨rfl, hsz⟩]
  have hmsg : (save_base64_file p uniqueHex subfolder).raised
      = some "Image size exceeds 10MB limit" := by
    rw [hfile]
    rfl
  have hsucc : (save_content sessions admins token tnow db payload
      [(save_base64_file p uniqueHex subfolder).result] freshId now).success = true := by
    rw [hfile]
    simp only [save_content, hauth]
  have hstat : (save_content sessions admins token tnow db payload
      [(save_base64_file p uniqueHex subfolder).result] freshId now).status = 200 := by
    rw [hfile]
    simp only [save_content, hauth]
  have himgs : (save_content sessions admins token tnow db payload
      [(save_base64_file p uniqueHex subfolder).result] freshId now).imageUrls = [] := by
    rw [hfile]
    simp only [save_content, hauth]
    rfl
  exact ⟨by rw [hfile], by rw [hfile], hmsg, by decide, hsucc, hstat, himgs⟩

/-- Witness for C3 (amended) at the concrete oversized upload. -/
theorem c3_oversized_image_amended_witness :
    (save_base64_file oversizedUpload "bbbb2222" "").result = none
    ∧ (save_base64_file oversizedUpload "bbbb2222" "").diskFiles = []
    ∧ (save_base64_file oversizedUpload "bbbb2222" "").raised
        = some "Image size exceeds 10MB limit"
    ∧ (save_content [wSession] [7] "tok" 0 [sampleActiveRow] {}
        [(save_base64_file oversizedUpload "bbbb2222" "").result] "content-y"
        "2026-02-02T00:00:00").success = true := by
  have h := c3_oversized_image_amended oversizedUpload "bbbb2222" "" [wSession] [7] "tok" 0 7
    [sampleActiveRow] {} "content-y" "2026-02-02T00:00:00"
    (by decide) (by decide) (by decide)
  exact ⟨h.1, h.2.1, h.2.2.1, h.2.2.2.2.1⟩

/-- C7: saving a well-formed image under the size ceiling returns a
descriptor with both a primary URL and a thumbnail URL; the saved
primary's longest edge is at most 1920 pixels (downscaled when needed)
and the saved thumbnail's longest edge is at most 300 pixels. -/
theorem c7_image_urls_and_bounds
    (p : Base64Upload) (uniqueHex subfolder : String) (w h : Nat)
    (hft : get_file_type p.filename = "image")
    (himg : p.imageInfo = some (w, h))
    (hw : 1 ≤ w) (hh : 1 ≤ h)
    (hsz : ¬ p.dataSize > MAX_IMAGE_SIZE) :
    ∃ d, (save_base64_file p uniqueHex subfolder).result = some d
      ∧ (∃ rest, d.url = "/uploads/" ++ rest)
      ∧ (∃ trest, d.thumbnail = some ("/uploads/" ++ trest))
      ∧ (∃ pw ph, d.dimensions = some (pw, ph) ∧ max pw ph ≤ 1920)
      ∧ (∃ tw th, (save_base64_file p uniqueHex subfolder).thumbDims = some (tw, th)
          ∧ max tw th ≤ 300) := by
  have hkey : ∀ pw ph : Nat, 1 ≤ pw → 1 ≤ ph →
      (thumbFit pw ph 300 300).1 ≤ 300 ∧ (thumbFit pw ph 300 300).2 ≤ 300 := by
    intro pw ph h1 h2
    have := thumbFit_bounds pw ph 300 300 h1 h2 (by omega) (by omega)
    exact ⟨this.2.1, this.2.2.2⟩
  simp only [save_base64_file]
  rw [hft]
  simp only [himg]
  rw [if_neg (fun hc : (True ∧ p.dataSize > MAX_IMAGE_SIZE) => hsz hc.2)]
  rw [if_neg (fun hc : ("image" = "video" ∧ p.dataSize > MAX_VIDEO_SIZE) =>
    absurd hc.1 (by decide))]
  rw [if_pos (trivial : True)]
  by_cases hbig : max w h > 1920
  · rw [if_pos hbig]
    have hb := thumbFit_bounds w h 1920 1920 hw hh (by omega) (by omega)
    refine ⟨_, rfl, ⟨_, rfl⟩, ⟨_, rfl⟩, ?_, ?_⟩
    · exact ⟨_, _, rfl, Nat.max_le.mpr ⟨hb.2.1, hb.2.2.2⟩⟩
    · have := hkey (thumbFit w h 1920 1920).1 (thumbFit w h 1920 1920).2 hb.1 hb.2.2.1
      exact ⟨_, _, rfl, Nat.max_le.mpr ⟨this.1, this.2⟩⟩
  · rw [if_neg hbig]
    refine ⟨_, rfl, ⟨_, rfl⟩, ⟨_, rfl⟩, ?_, ?_⟩
    · exact ⟨w, h, rfl, Nat.le_of_not_lt hbig⟩
    · have := hkey w h hw hh
      exact ⟨_, _, rfl, Nat.max_le.mpr ⟨this.1, this.2⟩⟩

/-- Witness for C7 at a concrete 4000×2000 JPEG. -/
theorem c7_image_urls_and_bounds_witness :
    ∃ d, (save_base64_file wellFormedUpload "cccc3333" "").result = some d
      ∧ (∃ rest, d.url = "/uploads/" ++ rest)
      ∧ (∃ trest, d.thumbnail = some ("/uploads/" ++ trest))
      ∧ (∃ pw ph, d.dimensions = some (pw, ph) ∧ max pw ph ≤ 1920)
      ∧ (∃ tw th, (save_base64_file wellFormedUpload "cccc3333" "").thumbDims = some (tw, th)
          ∧ max tw th ≤ 300) :=
  c7_image_urls_and_bounds wellFormedUpload "cccc3333" "" 4000 2000
    (by decide) (by decide) (by decide) (by decide) (by decide)

/-- C6: `PUT /api/content/{id}` fails NotFound (404, store unchanged)
when no row has the id; when the row exists, the newly ingested images
replace the stored image list wholesale exactly when at least one image
was ingested, otherwise the prior list is retained; and every scalar
field absent from the payload keeps its previous stored value (partial
update, never overwritten with null/empty).  `status`, the counters and
`created_date` are untouched; `updated_date` becomes the request time. -/
theorem c6_update_content_semantics
    (sessions : List Session) (admins : List Nat) (token : String) (tnow uid : Nat)
    (db : List ContentRow) (cid : String) (payload : ContentPayload)
    (files : List (Option SaveDesc)) (now : String)
    (hauth : checkAuth sessions admins token tnow = some uid) :
    (db.find? (fun r => r.id == cid) = none →
      (update_content sessions admins token tnow db cid payload files now).success = false
      ∧ (update_content sessions admins token tnow db cid payload files now).status = 404
      ∧ (update_content sessions admins token tnow db cid payload files now).db = db)
    ∧ (∀ existing, db.find? (fun r => r.id == cid) = some existing →
      (update_content sessions admins token tnow db cid payload files now).success = true
      ∧ (update_content sessions admins token tnow db cid payload files now).status = 200
      ∧ ∃ row,
          (update_content sessions admins token tnow db cid payload files now).db.find?
            (fun r => r.id == cid) = some row
          ∧ (ingestedImages files ≠ [] → row.imageUrls = ingestedImages files)
          ∧ (ingestedImages files = [] → row.imageUrls = existing.imageUrls)
          ∧ (payload.ctype = none → row.ctype = existing.ctype)
          ∧ (payload.title = none → row.title = existing.title)
          ∧ (payload.text = none → row.text = existing.text)
          ∧ (payload.category = none → row.category = existing.category)
          ∧ (payload.style = none → row.style = existing.style)
          ∧ (payload.priority = none → row.priority = existing.priority)
          ∧ (payload.author = none → row.author = existing.author)
          ∧ (payload.featured = none → row.featured = existing.featured)
          ∧ (payload.language = none → row.language = existing.language)
          ∧ (payload.seoTitle = none → row.seoTitle = existing.seoTitle)
          ∧ (payload.seoDescription = none → row.seoDescription = existing.seoDescription)
          ∧ (payload.seoKeywords = none → row.seoKeywords = existing.seoKeywords)
          ∧ ((payload.videoUrl = none ∧ (∀ d, some d ∈ files → d.ftype ≠ "video")) →
              row.videoUrl = existing.videoUrl)
          ∧ row.status = existing.status
          ∧ row.views = existing.views
          ∧ row.likes = existing.likes
          ∧ row.shares = existing.shares
          ∧ row.createdDate = existing.createdDate
          ∧ row.updatedDate = now) := by
  constructor
  · intro hnone
    simp only [update_content, hauth, hnone]
    exact ⟨by trivial, by trivial, by trivial⟩
  · intro existing hsome
    have hexid : (existing.id == cid) = true := by
      have h0 := List.find?_some hsome
      exact h0
    simp only [update_content, hauth, hsome]
    refine ⟨by trivial, by trivial, _,
      find?_update_eq db (fun r => r.id == cid) _ existing hsome hexid,
      ?_, ?_, ?_, ?_, ?_, ?_, ?_, ?_, ?_, ?_, ?_, ?_, ?_, ?_, ?_, rfl, rfl, rfl, rfl, rfl, rfl⟩
    · intro hne
      show (if (ingestedImages files).isEmpty = true then existing.imageUrls
          else ingestedImages files) = ingestedImages files
      rw [if_neg (fun hc => hne (List.isEmpty_iff.mp hc))]
    · intro he
      show (if (ingestedImages files).isEmpty = true then existing.imageUrls
          else ingestedImages files) = existing.imageUrls
      rw [if_pos (List.isEmpty_iff.mpr he)]
    · intro h0
      show payload.ctype.getD existing.ctype = existing.ctype
      rw [h0]
      rfl
    · intro h0
      show payload.title.getD existing.title = existing.title
      rw [h0]
      rfl
    · intro h0
      show payload.text.getD existing.text = existing.text
      rw [h0]
      rfl
    · intro h0
      show payload.category.getD existing.category = existing.category
      rw [h0]
      rfl
    · intro h0
      show payload.style.getD existing.style = existing.style
      rw [h0]
      rfl
    · intro h0
      show payload.priority.getD existing.priority = existing.priority
      rw [h0]
      rfl
    · intro h0
      show payload.author.getD existing.author = existing.author
      rw [h0]
      rfl
    · intro h0
      show payload.featured.getD existing.featured = existing.featured
      rw [h0]
      rfl
    · intro h0
      show payload.language.getD existing.language = existing.language
      rw [h0]
      rfl
    · intro h0
      show payload.seoTitle.getD existing.seoTitle = existing.seoTitle
      rw [h0]
      rfl
    · intro h0
      show payload.seoDescription.getD existing.seoDescription = existing.seoDescription
      rw [h0]
      rfl
    · intro h0
      show payload.seoKeywords.getD existing.seoKeywords = existing.seoKeywords
      rw [h0]
      rfl
    · intro h0
      show lastVideoUrl files (payload.videoUrl.getD existing.videoUrl) = existing.videoUrl
      rw [h0.1]
      exact lastVideoUrl_of_no_video files existing.videoUrl h0.2

/-- Witness for C6: an empty-payload, no-file PUT on the stored row
keeps title, image list and video URL. -/
theorem c6_update_content_semantics_witness :
    (update_content [wSession] [7] "tok" 0 [sampleActiveRow] "c1" {} []
      "2026-03-03T00:00:00").success = true
    ∧ ∃ row,
        (update_content [wSession] [7] "tok" 0 [sampleActiveRow] "c1" {} []
          "2026-03-03T00:00:00").db.find? (fun r => r.id == "c1") = some row
        ∧ row.title = sampleActiveRow.title
        ∧ row.imageUrls = sampleActiveRow.imageUrls
        ∧ row.videoUrl = sampleActiveRow.videoUrl
        ∧ row.views = sampleActiveRow.views := by
  have h := c6_update_content_semantics [wSession] [7] "tok" 0 7 [sampleActiveRow]
    "c1" {} [] "2026-03-03T00:00:00" (by decide)
  have h2 := h.2 sampleActiveRow (by decide)
  obtain ⟨row, hr, _, himg, _, htitle, hrest⟩ := h2.2.2
  refine ⟨h2.1, row, hr, htitle rfl, himg rfl, ?_, ?_⟩
  · exact hrest.2.2.2.2.2.2.2.2.2.2.1 ⟨rfl, by intro d hd; cases hd⟩
  · exact hrest.2.2.2.2.2.2.2.2.2.2.2.2.1

/-- C5: a successful `POST /api/qr` returns a qrId matching
`TREE-[0-9A-F]{8}` and a qrCodeUrl under `/uploads/qrcodes/`; the
created row starts with `qr_scan_count = 0`; and every
`GET /api/qr/{id}` that finds an Active row increments its stored
`qr_scan_count` by exactly 1 (returning the pre-increment row). -/
theorem c5_generate_qr_and_scan
    (sessions : List Session) (admins : List Nat) (token : String) (tnow uid : Nat)
    (db : List QrRow) (payload : QrPayload) (files : List (Option SaveDesc))
    (u : List (Fin 16)) (fnHex : String) (styledOk : Bool) (parsedDays : Option Int)
    (now : String)
    (hauth : checkAuth sessions admins token tnow = some uid)
    (hu : u.length = 32) :
    (generate_qr sessions admins token tnow db payload files u fnHex styledOk parsedDays
      now).success = true
    ∧ matchesTreePattern (generate_qr sessions admins token tnow db payload files u fnHex
        styledOk parsedDays now).qrId = true
    ∧ (∃ rest, (generate_qr sessions admins token tnow db payload files u fnHex styledOk
        parsedDays now).qrCodeUrl = "/uploads/qrcodes/" ++ rest)
    ∧ (∃ r0, (generate_qr sessions admins token tnow db payload files u fnHex styledOk
          parsedDays now).db.find?
          (fun x => x.id == (generate_qr sessions admins token tnow db payload files u fnHex
            styledOk parsedDays now).qrId && x.status == "Active") = some r0
        ∧ r0.qrScanCount = 0
        ∧ r0.status = "Active"
        ∧ r0.qrCodeUrl = (generate_qr sessions admins token tnow db payload files u fnHex
            styledOk parsedDays now).qrCodeUrl)
    ∧ (∀ (db2 : List QrRow) (r : QrRow) (qid : String),
        db2.find? (fun x => x.id == qid && x.status == "Active") = some r →
        (get_qr db2 qid).1 = some r
        ∧ (get_qr db2 qid).2.find? (fun x => x.id == qid && x.status == "Active")
            = some { r with qrScanCount := r.qrScanCount + 1 }) := by
  refine ⟨?_, ?_, ?_, ?_, ?_⟩
  · simp only [generate_qr, hauth]
  · simp only [generate_qr, hauth]
    exact qrIdOf_matches u (by omega)
  · simp only [generate_qr, hauth]
    cases styledOk
    · exact ⟨_, rfl⟩
    · exact ⟨_, rfl⟩
  · simp only [generate_qr, hauth]
    refine ⟨_, List.find?_cons_of_pos _ (by simp), rfl, rfl, rfl⟩
  · intro db2 r qid hr
    have h0 := List.find?_some hr
    have h0b : (r.id == qid && r.status == "Active") = true := h0
    have hid : (r.id == qid) = true := ((Bool.and_eq_true _ _).mp h0b).1
    unfold get_qr
    rw [hr]
    refine ⟨rfl, ?_⟩
    have hp : ∀ x : QrRow,
        ((if (x.id == qid) = true then { x with qrScanCount := x.qrScanCount + 1 } else x).id
          == qid &&
         (if (x.id == qid) = true then { x with qrScanCount := x.qrScanCount + 1 } else x).status
          == "Active")
        = (x.id == qid && x.status == "Active") := by
      intro x
      by_cases hx : (x.id == qid) = true
      · rw [if_pos hx]
      · rw [if_neg hx]
    show (db2.map fun x =>
        if (x.id == qid) = true then { x with qrScanCount := x.qrScanCount + 1 } else x).find?
        (fun x => x.id == qid && x.status == "Active")
        = some { r with qrScanCount := r.qrScanCount + 1 }
    rw [find?_map_of_pred _ _ _ hp, hr]
    show some (if (r.id == qid) = true then { r with qrScanCount := r.qrScanCount + 1 } else r)
        = some { r with qrScanCount := r.qrScanCount + 1 }
    rw [if_pos hid]

/-- Witness for C5 at a concrete request (uuid hex digits all zero,
styled rendering succeeding): the id is `TREE-00000000`. -/
theorem c5_generate_qr_and_scan_witness :
    (generate_qr [wSession] [7] "tok" 0 [] {} [] (List.replicate 32 (0 : Fin 16)) "ab12" true
      none "2026-04-04T00:00:00").success = true
    ∧ matchesTreePattern (generate_qr [wSession] [7] "tok" 0 [] {} []
        (List.replicate 32 (0 : Fin 16)) "ab12" true none "2026-04-04T00:00:00").qrId = true
    ∧ (∃ rest, (generate_qr [wSession] [7] "tok" 0 [] {} []
        (List.replicate 32 (0 : Fin 16)) "ab12" true none
        "2026-04-04T00:00:00").qrCodeUrl = "/uploads/qrcodes/" ++ rest)
    ∧ (∃ r0, (generate_qr [wSession] [7] "tok" 0 [] {} []
          (List.replicate 32 (0 : Fin 16)) "ab12" true none "2026-04-04T00:00:00").db.find?
          (fun x => x.id == (generate_qr [wSession] [7] "tok" 0 [] {} []
            (List.replicate 32 (0 : Fin 16)) "ab12" true none
            "2026-04-04T00:00:00").qrId && x.status == "Active") = some r0
        ∧ r0.qrScanCount = 0) := by
  have h := c5_generate_qr_and_scan [wSession] [7] "tok" 0 7 [] {} []
    (List.replicate 32 (0 : Fin 16)) "ab12" true none "2026-04-04T00:00:00"
    (by decide) (by decide)
  obtain ⟨r0, hr0, hscan, _, _⟩ := h.2.2.2.1
  exact ⟨h.1, h.2.1, h.2.2.1, r0, hr0, hscan⟩

end KcJain
